import Mathlib

/-!
Shallow embedding of `netbox_topology_views/views.py` (the current, query-set
based `get_topology_data` builder and its helper `_generate_description`),
together with theorems settling the specification claims about it.

Modelling conventions:
* Django model instances become Lean structures carrying exactly the fields the
  builder reads.  `str(x)` of a model instance is modelled as a stored field.
* The cable table behind `Cable.objects.filter(*cables_query)` is an explicit
  list of cables; the ORM filter becomes a boolean predicate on a cable.
* Python `None` becomes `Option.none`; Python truthiness of strings is
  emptiness, of optional objects `Option.isSome`.
* `django.utils.html.escape` is modelled character by character (it replaces
  the five characters `&`, `<`, `>`, the double quote and the single quote by
  HTML entities).
-/

namespace TopologyViews

/-- A device as read by the builder: `id`, `name` (nullable), `identifier`,
`str(device)` (its display string), the role's `slug`/`name`/`color`, the
device type's `model` (nullable object), `serial`, `primary_ip` (nullable,
kept as its display string) and `status`. -/
structure Device where
  id : Nat
  name : Option String
  identifier : String
  str : String
  device_role_slug : String
  device_role_name : String
  device_role_color : String
  device_type_model : Option String
  serial : String
  primary_ip : Option String
  status : String
deriving DecidableEq, Repr

/-- What a cable termination resolves to: either a device component (whose
`.device` is a `Device`) or a `CircuitTermination` (no `.device`; the builder
only ever checks `isinstance(t, CircuitTermination)` on it). -/
inductive TermOwner where
  | device (d : Device)
  | circuitEnd (circuitId : Nat)
deriving DecidableEq, Repr

/-- One cable termination: its owner, the `name` of its content type (used by
the ORM filter `termination_x_type__name__in`) and `str(termination)`. -/
structure Termination where
  owner : TermOwner
  type_name : String
  str : String
deriving DecidableEq, Repr

/-- `termination_x_type__model == "circuittermination"`, equivalently
`isinstance(termination_x, CircuitTermination)`. -/
def Termination.isCircuitTermination (t : Termination) : Bool :=
  match t.owner with
  | TermOwner.device _ => false
  | TermOwner.circuitEnd _ => true

/-- The denormalized `_termination_x_device_id` column: the owning device id
for a device-bound termination, NULL for a circuit termination. -/
def Termination.deviceId? (t : Termination) : Option Nat :=
  match t.owner with
  | TermOwner.device d => some d.id
  | TermOwner.circuitEnd _ => none

/-- A cable as read by the builder: terminations A and B, `type` (a string,
empty when absent) and `color` (hex without `#`, empty when absent). -/
structure Cable where
  termination_a : Termination
  termination_b : Termination
  type : String
  color : String
deriving DecidableEq, Repr

/-- `settings.PLUGINS_CONFIG["netbox_topology_views"]`, restricted to the keys
the builder reads. -/
structure PluginConfig where
  ignore_cable_type : List String
  enable_circuit_terminations : Bool
  device_img : List String
deriving DecidableEq, Repr

/-- views.py lines 48-49: `ignore_cable_types` is replaced by the plugin
configuration value only when it `is None`.  (Note the parameter's default is
the empty tuple `()`, not `None`.) -/
def resolve_ignore_cable_types (plugin_config : PluginConfig)
    (ignore_cable_types : Option (List String)) : List String :=
  match ignore_cable_types with
  | none => plugin_config.ignore_cable_type
  | some v => v

/-- views.py lines 51-52: `enable_circuit_terminations` falls back to the
plugin configuration when it `is None` (its default). -/
def resolve_enable_circuit_terminations (plugin_config : PluginConfig)
    (enable_circuit_terminations : Option Bool) : Bool :=
  match enable_circuit_terminations with
  | none => plugin_config.enable_circuit_terminations
  | some v => v

/-- views.py lines 54-55: `enabled_device_images` falls back to the plugin
configuration when it `is None` (its default). -/
def resolve_enabled_device_images (plugin_config : PluginConfig)
    (enabled_device_images : Option (List String)) : List String :=
  match enabled_device_images with
  | none => plugin_config.device_img
  | some v => v

/-- The ORM filter `Cable.objects.filter(*cables_query)` of views.py lines
63-86 as a predicate on one cable:
* always: `_termination_a_device_id__in=device_ids` OR the same for B;
* only if circuit terminations are disabled: neither termination's type model
  is `"circuittermination"`;
* only if `ignore_cable_types` is non-empty (Python truthiness): neither
  termination's type name is in that list. -/
def cableInQuery (device_ids : List Nat) (enable_circuit_terminations : Bool)
    (ignore_cable_types : List String) (c : Cable) : Bool :=
  ((match c.termination_a.deviceId? with
    | some i => device_ids.contains i
    | none => false)
   || (match c.termination_b.deviceId? with
    | some i => device_ids.contains i
    | none => false))
  && (enable_circuit_terminations
      || !(c.termination_a.isCircuitTermination || c.termination_b.isCircuitTermination))
  && (ignore_cable_types.isEmpty
      || !(ignore_cable_types.contains c.termination_a.type_name
           || ignore_cable_types.contains c.termination_b.type_name))

/-- One character of `django.utils.html.escape`: `&` ↦ `&amp;`, `<` ↦ `&lt;`,
`>` ↦ `&gt;`, double quote ↦ `&quot;`, single quote (`Char.ofNat 39`) ↦
`&#x27;`, anything else unchanged. -/
def escapeCharList (c : Char) : List Char :=
  if c = '&' then "&amp;".data
  else if c = '<' then "&lt;".data
  else if c = '>' then "&gt;".data
  else if c = '"' then "&quot;".data
  else if c = Char.ofNat 39 then "&#x27;".data
  else [c]

/-- `django.utils.html.escape`, character-wise over the string. -/
def escape (s : String) : String :=
  String.mk (s.data.flatMap escapeCharList)

/-- `p.startsWithChars l`: the character list `l` begins with `p`. -/
def startsWithChars : List Char → List Char → Bool
  | [], _ => true
  | _ :: _, [] => false
  | p :: ps, c :: cs => p = c && startsWithChars ps cs

/-- What it means for free text to be HTML-escaped: the character list holds
no raw `<`, `>`, double quote or single quote, and every `&` begins one of the
five escape entities (`amp`, `lt`, `gt`, `quot`, `#x27`). -/
def htmlSafeChars : List Char → Bool
  | [] => true
  | c :: rest =>
    if c = '<' ∨ c = '>' ∨ c = '"' ∨ c = Char.ofNat 39 then false
    else if c = '&' then
      (startsWithChars "amp;".data rest || startsWithChars "lt;".data rest
        || startsWithChars "gt;".data rest || startsWithChars "quot;".data rest
        || startsWithChars "#x27;".data rest)
      && htmlSafeChars rest
    else htmlSafeChars rest

/-- A string is HTML-safe free text (see `htmlSafeChars`). -/
def HtmlSafe (s : String) : Prop := htmlSafeChars s.data = true

/-- Python `str.join`: `sep.join(l)` is the elements of `l` separated by
`sep` (empty for the empty list). -/
def joinSep (sep : String) : List String → String
  | [] => ""
  | [x] => x
  | x :: y :: ys => x ++ sep ++ joinSep sep (y :: ys)

/-- One table row of `_generate_description` (the f-string at views.py line
26): the raw key — the loop variable `title` shadows the parameter and is
interpolated without escaping — and the escaped value. -/
def _description_row (kv : String × String) : String :=
  "<th align=\"right\">" ++ kv.1 ++ "</th><td>" ++ escape kv.2 ++ "</td>"

/-- `_generate_description` of views.py lines 21-32: a `<span>` with the
escaped title followed by a table of `_description_row`s joined on
`"</tr><tr>"`. -/
def _generate_description (title : String) (from_data : List (String × String)) : String :=
  "<span class=\"topology-item-description\">" ++ escape title ++ "</span>"
    ++ "<table class=\"topology-item-table\"><tr>"
    ++ joinSep "</tr><tr>" (from_data.map _description_row)
    ++ "</tr></table>"

/-- Python `repr` applied to `device.serial` (views.py line 149); modelled for
strings without quotes or backslashes, where `repr` wraps the text in single
quotes (`Char.ofNat 39`). -/
def pyRepr (s : String) : String :=
  String.mk (Char.ofNat 39 :: (s.data ++ [Char.ofNat 39]))

/-- The in-loop membership test of views.py lines 87-90:
`cable.termination_a_type in ignore_cable_types`.  The left operand is a
`ContentType` instance while `ignore_cable_types` holds strings, and a
`ContentType` never compares equal to a `str`, so the Python `in` test is
always false. -/
def contentTypeInStrings (_t : Termination) (_l : List String) : Bool := false

/-- The `{"align": "middle"}` dictionary stored under the edge's `font` key. -/
structure FontSpec where
  align : String
deriving DecidableEq, Repr

/-- An output edge dictionary.  `efrom`/`eto` model the `"from"`/`"to"` keys
(`from` is a Lean keyword); optional keys are `Option` fields, `none` when the
key is absent.  The current builder never sets `"dashes"`. -/
structure Edge where
  id : Nat
  efrom : Nat
  eto : Nat
  title : String
  headlabel : String
  taillabel : String
  label : Option String
  font : Option FontSpec
  color : Option String
  dashes : Option Bool
deriving DecidableEq, Repr

/-- The edge dictionary built in views.py lines 100-114 for a cable whose two
terminations resolve to devices `dev_a` and `dev_b`; `eid` is `len(edges)` at
append time. -/
def edgeOfCable (eid : Nat) (cable : Cable) (dev_a dev_b : Device) : Edge :=
  { id := eid
    efrom := dev_a.id
    eto := dev_b.id
    title := "Cable between:<br>" ++ dev_a.str ++ " [" ++ cable.termination_a.str ++ "]<br>"
      ++ dev_b.str ++ " [" ++ cable.termination_b.str ++ "]"
    headlabel := cable.termination_a.str
    taillabel := cable.termination_b.str
    label := if cable.type = "" then none else some cable.type
    font := if cable.type = "" then none else some { align := "middle" }
    color := if cable.color = "" then none else some ("#" ++ cable.color)
    dashes := none }

/-- One iteration of the cable loop (views.py lines 86-116) over the state
`(devices_with_cables, edges)`:
* lines 87-91: skip if a termination type is "in" the ignore list (always
  false, see `contentTypeInStrings`);
* lines 95-97: skip if either termination is a `CircuitTermination`
  (`@TODO: finish circuit termination processing`);
* lines 99-116: otherwise record both device ids and append the edge. -/
def cableStep (ignore_cable_types : List String) (st : List Nat × List Edge)
    (cable : Cable) : List Nat × List Edge :=
  if contentTypeInStrings cable.termination_a ignore_cable_types
      || contentTypeInStrings cable.termination_b ignore_cable_types then st
  else
    match cable.termination_a.owner, cable.termination_b.owner with
    | TermOwner.device dev_a, TermOwner.device dev_b =>
        (st.1 ++ [dev_a.id, dev_b.id],
         st.2 ++ [edgeOfCable st.2.length cable dev_a dev_b])
    | TermOwner.device _, TermOwner.circuitEnd _ => st
    | TermOwner.circuitEnd _, TermOwner.device _ => st
    | TermOwner.circuitEnd _, TermOwner.circuitEnd _ => st

/-- The whole cable loop: fold `cableStep` over the cables returned by the
query, starting from empty `devices_with_cables` and `edges`. -/
def edge_pass (ignore_cable_types : List String) (cables : List Cable) :
    List Nat × List Edge :=
  cables.foldl (cableStep ignore_cable_types) ([], [])

/-- An output node dictionary; `color_border` models the `"color.border"` key,
`none` when absent. -/
structure Node where
  id : Nat
  name : String
  label : String
  shape : String
  image : String
  title : String
  color_border : Option String
deriving DecidableEq, Repr

/-- The `node_data` dictionary of views.py lines 142-151, as an ordered
association list: always `Status`; then `Type` if the device type object is
present, `Role` if the role name is truthy (non-empty), `Serial` (through
`repr`) if truthy, `Primary IP` if present. -/
def device_node_data (device : Device) : List (String × String) :=
  [("Status", device.status)]
    ++ (match device.device_type_model with
        | some m => [("Type", m)]
        | none => [])
    ++ (if device.device_role_name = "" then [] else [("Role", device.device_role_name)])
    ++ (if device.serial = "" then [] else [("Serial", pyRepr device.serial)])
    ++ (match device.primary_ip with
        | some ip => [("Primary IP", ip)]
        | none => [])

/-- The node dictionary built in views.py lines 124-156.  Note line 135: the
`name` field is `escape(device.name if device.name is None else
f"untitled-{device.identifier}")` — when `device.name is None` the escaped
value is `None` itself (whose `str()` is `"None"`), otherwise the synthesized
`untitled-` string; the device's actual name is never used. -/
def mkNode (enabled_device_images : List String) (device : Device) : Node :=
  { id := device.id
    name := escape (match device.name with
      | none => "None"
      | some _ => "untitled-" ++ device.identifier)
    label := escape device.str
    shape := "image"
    image := "../../static/netbox_topology_views/img/"
      ++ (if enabled_device_images.contains device.device_role_slug
          then device.device_role_slug
          else "role-unknown")
      ++ ".png"
    title := _generate_description device.str (device_node_data device)
    color_border := if device.device_role_color = "" then none
      else some ("#" ++ device.device_role_color) }

/-- The node loop of views.py lines 119-158: keep a device unless
`hide_unconnected` is set and its id was not recorded in
`devices_with_cables`, then build its node. -/
def node_pass (enabled_device_images : List String) (hide_unconnected : Bool)
    (devices_with_cables : List Nat) (queryset : List Device) : List Node :=
  (queryset.filter
      (fun d => !hide_unconnected || devices_with_cables.contains d.id)).map
    (mkNode enabled_device_images)

/-- The returned `{"nodes": ..., "edges": ...}` payload. -/
structure TopologyData where
  nodes : List Node
  edges : List Edge
deriving DecidableEq, Repr

/-- The list of cables returned by `Cable.objects.filter(*cables_query)` for
one call: the cable table filtered by `cableInQuery` with the resolved
parameter values. -/
def scopedCables (plugin_config : PluginConfig) (all_cables : List Cable)
    (queryset : List Device) (ignore_cable_types : Option (List String))
    (enable_circuit_terminations : Option Bool) : List Cable :=
  all_cables.filter (cableInQuery (queryset.map Device.id)
    (resolve_enable_circuit_terminations plugin_config enable_circuit_terminations)
    (resolve_ignore_cable_types plugin_config ignore_cable_types))

/-- `get_topology_data` of views.py lines 35-160.  `plugin_config` is the
process-wide plugin configuration, `all_cables` the cable table behind the
ORM.  The three optional parameters are `Option`s mirroring Python `None`;
the Python defaults are `()` (i.e. `some []`) for `ignore_cable_types` and
`None` for the other two. -/
def get_topology_data (plugin_config : PluginConfig) (all_cables : List Cable)
    (queryset : List Device) (hide_unconnected : Bool)
    (ignore_cable_types : Option (List String))
    (enable_circuit_terminations : Option Bool)
    (enabled_device_images : Option (List String)) : Option TopologyData :=
  if queryset.isEmpty then none
  else some
    { nodes := node_pass (resolve_enabled_device_images plugin_config enabled_device_images)
        hide_unconnected
        (edge_pass (resolve_ignore_cable_types plugin_config ignore_cable_types)
          (scopedCables plugin_config all_cables queryset ignore_cable_types
            enable_circuit_terminations)).1
        queryset
      edges := (edge_pass (resolve_ignore_cable_types plugin_config ignore_cable_types)
        (scopedCables plugin_config all_cables queryset ignore_cable_types
          enable_circuit_terminations)).2 }

/-! ### Concrete fixtures used by counterexamples and witnesses -/

/-- A minimal device: given id, with name/identifier/display string `s`, no
role data, no type, no serial, no primary address. -/
def plainDevice (i : Nat) (s : String) : Device :=
  { id := i
    name := some s
    identifier := s
    str := s
    device_role_slug := ""
    device_role_name := ""
    device_role_color := ""
    device_type_model := none
    serial := ""
    primary_ip := none
    status := "active" }

/-- A device-bound termination of content type `interface`. -/
def directTerm (d : Device) (s : String) : Termination :=
  { owner := TermOwner.device d, type_name := "interface", str := s }

/-- A plugin configuration with nothing ignored, circuits disabled, no role
images. -/
def emptyConfig : PluginConfig :=
  { ignore_cable_type := []
    enable_circuit_terminations := false
    device_img := [] }

/-- A cable from device 1 (requested) to device 2 (never requested). -/
def cexCableOutside : Cable :=
  { termination_a := directTerm (plainDevice 1 "inside") "eth0"
    termination_b := directTerm (plainDevice 2 "outside") "eth1"
    type := ""
    color := "" }

/-- A cable whose A termination is a circuit termination. -/
def circuitCable : Cable :=
  { termination_a :=
      { owner := TermOwner.circuitEnd 7, type_name := "circuit termination", str := "ct1" }
    termination_b := directTerm (plainDevice 3 "devC") "eth0"
    type := ""
    color := "" }

/-- A configuration whose ignore list names the `power outlet` type. -/
def ignoringConfig : PluginConfig :=
  { ignore_cable_type := ["power outlet"]
    enable_circuit_terminations := false
    device_img := [] }

/-- A cable whose terminations both have the ignored type name. -/
def powerCable : Cable :=
  { termination_a :=
      { owner := TermOwner.device (plainDevice 1 "a"), type_name := "power outlet", str := "po1" }
    termination_b :=
      { owner := TermOwner.device (plainDevice 2 "b"), type_name := "power outlet", str := "po2" }
    type := ""
    color := "" }

/-- A device whose display string contains raw HTML markup. -/
def markupDevice : Device := { plainDevice 1 "x" with str := "<x" }

/-- A cable between `markupDevice` and a plain device. -/
def markupCable : Cable :=
  { termination_a := directTerm markupDevice "A"
    termination_b := directTerm (plainDevice 2 "y") "B"
    type := ""
    color := "" }

/-- A cable with a non-empty `type` between two requested devices. -/
def typedCable : Cable :=
  { termination_a := directTerm (plainDevice 1 "a") "A"
    termination_b := directTerm (plainDevice 2 "b") "B"
    type := "cat6"
    color := "" }

/-- The result for the one-requested-device, one-outbound-cable scenario. -/
def cexResult : TopologyData :=
  (get_topology_data emptyConfig [cexCableOutside] [plainDevice 1 "inside"] false
    (some []) (some false) (some [])).getD { nodes := [], edges := [] }

/-- The result for a connected device plus an isolated device 5. -/
def hubResult : TopologyData :=
  (get_topology_data emptyConfig [cexCableOutside]
    [plainDevice 1 "inside", plainDevice 5 "d5"] false
    (some []) (some false) (some [])).getD { nodes := [], edges := [] }

/-- The result for the single isolated device 5. -/
def d5Result : TopologyData :=
  (get_topology_data emptyConfig [] [plainDevice 5 "d5"] false
    (some []) (some false) (some [])).getD { nodes := [], edges := [] }

/-- The result for the `typedCable` scenario. -/
def typedResult : TopologyData :=
  (get_topology_data emptyConfig [typedCable] [plainDevice 1 "a", plainDevice 2 "b"] false
    (some []) (some false) (some [])).getD { nodes := [], edges := [] }

/-- The result for the `markupCable` scenario. -/
def markupResult : TopologyData :=
  (get_topology_data emptyConfig [markupCable] [markupDevice, plainDevice 2 "y"] false
    (some []) (some false) (some [])).getD { nodes := [], edges := [] }

/-! ### Supporting lemmas -/

/-- One step of the cable loop on a cable whose two terminations are
device-bound appends both device ids and the corresponding edge. -/
theorem cableStep_devices (ignore_cable_types : List String) (st : List Nat × List Edge)
    (cable : Cable) (dev_a dev_b : Device)
    (ha : cable.termination_a.owner = TermOwner.device dev_a)
    (hb : cable.termination_b.owner = TermOwner.device dev_b) :
    cableStep ignore_cable_types st cable =
      (st.1 ++ [dev_a.id, dev_b.id],
       st.2 ++ [edgeOfCable st.2.length cable dev_a dev_b]) := by
  simp [cableStep, contentTypeInStrings, ha, hb]

/-- One step of the cable loop on a cable with a circuit-termination endpoint
leaves the state unchanged. -/
theorem cableStep_skip (ignore_cable_types : List String) (st : List Nat × List Edge)
    (cable : Cable)
    (h : (cable.termination_a.isCircuitTermination
      || cable.termination_b.isCircuitTermination) = true) :
    cableStep ignore_cable_types st cable = st := by
  rcases hoa : cable.termination_a.owner with d1 | i <;>
    rcases hob : cable.termination_b.owner with d2 | j
  all_goals simp [cableStep, contentTypeInStrings, hoa, hob]
  all_goals simp [Termination.isCircuitTermination, hoa, hob] at h

/-- Provenance of edges: every edge produced by folding the cable loop either
was already in the accumulator or is the edge built (at its own id) from some
processed cable whose two terminations are device-bound. -/
theorem mem_edges_foldl (ignore_cable_types : List String) (l : List Cable) :
    ∀ st : List Nat × List Edge, ∀ e ∈ (l.foldl (cableStep ignore_cable_types) st).2,
      e ∈ st.2 ∨ ∃ c ∈ l, ∃ dev_a dev_b : Device,
        c.termination_a.owner = TermOwner.device dev_a ∧
        c.termination_b.owner = TermOwner.device dev_b ∧
        e = edgeOfCable e.id c dev_a dev_b := by
  induction l with
  | nil => intro st e he; exact Or.inl he
  | cons c l ih =>
      intro st e he
      rw [List.foldl_cons] at he
      rcases ih (cableStep ignore_cable_types st c) e he with
        h | ⟨c', hc', dev_a, dev_b, ha, hb, hedge⟩
      · rcases hoa : c.termination_a.owner with dev_a | i
        · rcases hob : c.termination_b.owner with dev_b | j
          · rw [cableStep_devices ignore_cable_types st c dev_a dev_b hoa hob] at h
            rcases List.mem_append.mp h with h | h
            · exact Or.inl h
            · have he' := List.mem_singleton.mp h
              subst he'
              exact Or.inr ⟨c, List.mem_cons_self c l, dev_a, dev_b, hoa, hob, rfl⟩
          · rw [cableStep_skip ignore_cable_types st c
              (by simp [Termination.isCircuitTermination, hob])] at h
            exact Or.inl h
        · rw [cableStep_skip ignore_cable_types st c
            (by simp [Termination.isCircuitTermination, hoa])] at h
          exact Or.inl h
      · exact Or.inr ⟨c', List.mem_cons_of_mem c hc', dev_a, dev_b, ha, hb, hedge⟩

/-- Invariant of the cable loop: every id recorded in `devices_with_cables` is
an endpoint of some edge in the accumulated edge list. -/
theorem dwc_incident_foldl (ignore_cable_types : List String) (l : List Cable) :
    ∀ st : List Nat × List Edge,
      (∀ x ∈ st.1, ∃ e ∈ st.2, x = e.efrom ∨ x = e.eto) →
      ∀ x ∈ (l.foldl (cableStep ignore_cable_types) st).1,
        ∃ e ∈ (l.foldl (cableStep ignore_cable_types) st).2, x = e.efrom ∨ x = e.eto := by
  induction l with
  | nil => intro st h; simpa using h
  | cons c l ih =>
      intro st h
      rw [List.foldl_cons]
      apply ih
      rcases hoa : c.termination_a.owner with dev_a | i
      · rcases hob : c.termination_b.owner with dev_b | j
        · rw [cableStep_devices ignore_cable_types st c dev_a dev_b hoa hob]
          intro x hx
          rcases List.mem_append.mp hx with hx | hx
          · rcases h x hx with ⟨e, he, hor⟩
            exact ⟨e, List.mem_append_left _ he, hor⟩
          · refine ⟨edgeOfCable st.2.length c dev_a dev_b,
              List.mem_append_right _ (List.mem_singleton.mpr rfl), ?_⟩
            have hx' : x = dev_a.id ∨ x = dev_b.id := by simpa using hx
            rcases hx' with rfl | rfl
            · exact Or.inl rfl
            · exact Or.inr rfl
        · rw [cableStep_skip ignore_cable_types st c
            (by simp [Termination.isCircuitTermination, hob])]
          exact h
      · rw [cableStep_skip ignore_cable_types st c
          (by simp [Termination.isCircuitTermination, hoa])]
        exact h

/-- Destructuring a successful call: the node list is the node pass over the
queryset and the edge list is the edge pass over the in-scope cables. -/
theorem get_topology_data_eq_some {plugin_config : PluginConfig} {all_cables : List Cable}
    {queryset : List Device} {hide_unconnected : Bool}
    {ignore_cable_types : Option (List String)} {enable_circuit_terminations : Option Bool}
    {enabled_device_images : Option (List String)} {t : TopologyData}
    (h : get_topology_data plugin_config all_cables queryset hide_unconnected
      ignore_cable_types enable_circuit_terminations enabled_device_images = some t) :
    t.nodes = node_pass (resolve_enabled_device_images plugin_config enabled_device_images)
        hide_unconnected
        (edge_pass (resolve_ignore_cable_types plugin_config ignore_cable_types)
          (scopedCables plugin_config all_cables queryset ignore_cable_types
            enable_circuit_terminations)).1 queryset
    ∧ t.edges = (edge_pass (resolve_ignore_cable_types plugin_config ignore_cable_types)
        (scopedCables plugin_config all_cables queryset ignore_cable_types
          enable_circuit_terminations)).2 := by
  unfold get_topology_data at h
  split at h
  · exact absurd h (by simp)
  · cases Option.some.inj h
    exact ⟨rfl, rfl⟩

/-- Scanning one ordinary character (none of the five escaped ones) leaves
HTML-safety of the remainder unchanged. -/
theorem htmlSafeChars_cons_plain {c : Char} (h2 : ¬c = '<') (h3 : ¬c = '>')
    (h4 : ¬c = '"') (h5 : ¬c = Char.ofNat 39) (h1 : ¬c = '&') (l : List Char) :
    htmlSafeChars (c :: l) = htmlSafeChars l := by
  simp only [htmlSafeChars]
  rw [if_neg (by simp [h2, h3, h4, h5]), if_neg h1]

/-- The character-wise escape always produces HTML-safe text. -/
theorem htmlSafeChars_escape_list (l : List Char) :
    htmlSafeChars (l.flatMap escapeCharList) = true := by
  induction l with
  | nil => rfl
  | cons c l ih =>
      rw [List.flatMap_cons]
      by_cases h1 : c = '&'
      · subst h1; exact ih
      by_cases h2 : c = '<'
      · subst h2; exact ih
      by_cases h3 : c = '>'
      · subst h3; exact ih
      by_cases h4 : c = '"'
      · subst h4; exact ih
      by_cases h5 : c = Char.ofNat 39
      · subst h5; exact ih
      have hec : escapeCharList c = [c] := by
        simp [escapeCharList, h1, h2, h3, h4, h5]
      rw [hec, List.singleton_append, htmlSafeChars_cons_plain h2 h3 h4 h5 h1]
      exact ih

/-- Every output of `escape` is HTML-safe free text. -/
theorem escape_HtmlSafe (s : String) : HtmlSafe (escape s) :=
  htmlSafeChars_escape_list s.data

/-- Text beginning with a raw `<` is not HTML-safe. -/
theorem not_htmlSafeChars_of_head_lt {l : List Char} (h : l.head? = some '<') :
    htmlSafeChars l = false := by
  cases l with
  | nil => simp at h
  | cons c rest =>
      simp only [List.head?_cons, Option.some.injEq] at h
      subst h
      simp [htmlSafeChars]

/-- Any member of a joined list occurs as a contiguous character segment of
the joined string. -/
theorem joinSep_decomp (sep : String) (l : List String) (x : String) (hx : x ∈ l) :
    ∃ a b : List Char, (joinSep sep l).data = a ++ x.data ++ b := by
  induction l with
  | nil => cases hx
  | cons y ys ih =>
      rcases List.mem_cons.mp hx with rfl | hx'
      · cases ys with
        | nil => exact ⟨[], [], by simp [joinSep]⟩
        | cons z zs =>
            exact ⟨[], sep.data ++ (joinSep sep (z :: zs)).data,
              by simp [joinSep, String.data_append, List.append_assoc]⟩
      · cases ys with
        | nil => cases hx'
        | cons z zs =>
            rcases ih hx' with ⟨a, b, hab⟩
            exact ⟨y.data ++ sep.data ++ a, b,
              by simp [joinSep, String.data_append, hab, List.append_assoc]⟩

/-- The escaped tooltip title occurs as a contiguous segment of the
description payload. -/
theorem _generate_description_title_segment (title : String)
    (from_data : List (String × String)) :
    ∃ a b : List Char,
      (_generate_description title from_data).data = a ++ (escape title).data ++ b := by
  refine ⟨"<span class=\"topology-item-description\">".data,
    ("</span>" ++ "<table class=\"topology-item-table\"><tr>"
      ++ joinSep "</tr><tr>" (from_data.map _description_row) ++ "</tr></table>").data, ?_⟩
  unfold _generate_description
  simp [String.data_append, List.append_assoc]

/-- The escaped value of every table cell occurs as a contiguous segment of
the description payload. -/
theorem _generate_description_cell_segment (title : String)
    (from_data : List (String × String)) (kv : String × String) (hkv : kv ∈ from_data) :
    ∃ a b : List Char,
      (_generate_description title from_data).data = a ++ (escape kv.2).data ++ b := by
  rcases joinSep_decomp "</tr><tr>" (from_data.map _description_row)
    (_description_row kv) (List.mem_map_of_mem _ hkv) with ⟨a, b, hab⟩
  refine ⟨("<span class=\"topology-item-description\">" ++ escape title ++ "</span>"
      ++ "<table class=\"topology-item-table\"><tr>").data
      ++ a ++ ("<th align=\"right\">" ++ kv.1 ++ "</th><td>").data,
    "</td>".data ++ b ++ "</tr></table>".data, ?_⟩
  unfold _generate_description
  simp only [String.data_append, hab, _description_row, List.append_assoc]

/-! ### Claim theorems -/

/-- C1, counterexample: with only device 1 requested and a cable from device 1
to device 2, the builder emits the edge `(from 1, to 2)` although device 2 is
not a member of the requested device set — refuting "an edge is appended only
if both resolved endpoint devices are members of the originally requested
device set". -/
theorem C1_counterexample :
    (get_topology_data emptyConfig [cexCableOutside] [plainDevice 1 "inside"] false
      (some []) (some false) (some [])).map
        (fun t => t.edges.map (fun e => (e.efrom, e.eto))) = some [(1, 2)]
    ∧ 2 ∉ ([plainDevice 1 "inside"].map Device.id) :=
  ⟨rfl, by decide⟩

/-- C2, counterexample: a single requested device with id 5 and no cables
yields the node id list `[5]`, not the contiguous range `[0, 1)` — node ids
are device ids, not densely assigned slots. -/
theorem C2_counterexample :
    (get_topology_data emptyConfig [] [plainDevice 5 "d5"] false
      (some []) (some false) (some [])).map (fun t => t.nodes.map Node.id) = some [5]
    ∧ ([5] : List Nat) ≠ List.range 1 :=
  ⟨rfl, by decide⟩

/-- C3: evaluation at the failing input.  Circuit terminations are enabled and
the only in-scope cable has a circuit-termination endpoint, yet the edge list
is empty: views.py lines 95-97 skip every such cable
(`@TODO: finish circuit termination processing`), so no edge with
`dashes = true` and a `"Circuit: "` title is ever produced. -/
theorem C3_code_evaluation :
    (get_topology_data emptyConfig [circuitCable]
      [plainDevice 3 "devC", plainDevice 4 "devA"] false
      (some []) (some true) (some [])).map TopologyData.edges = some [] := rfl

/-- C4: evaluation at the failing input.  The device with display name
`router1` (identifier `dev1`) gets node name `"untitled-dev1"`, and the
nameless device gets `"None"` — the ternary at views.py line 135 is inverted
relative to the claim. -/
theorem C4_code_evaluation :
    (get_topology_data emptyConfig []
      [{ plainDevice 1 "router1" with identifier := "dev1" },
       { plainDevice 2 "x" with name := none }] false
      (some []) (some false) (some [])).map (fun t => t.nodes.map Node.name)
    = some ["untitled-dev1", "None"] := rfl

/-- C5, counterexample: with `ignore_cable_types` left at its Python default
`()` (not `None`), a cable whose termination type name is in the
configuration's ignore list still produces an edge; passing the configuration
value explicitly suppresses it.  Hence the value actually used for an unset
`ignore_cable_types` is the empty collection, not the process-wide
configuration value. -/
theorem C5_counterexample :
    (get_topology_data ignoringConfig [powerCable]
      [plainDevice 1 "a", plainDevice 2 "b"] false (some []) none none).map
        (fun t => t.edges.length) = some 1
    ∧ (get_topology_data ignoringConfig [powerCable]
      [plainDevice 1 "a", plainDevice 2 "b"] false
      (some ignoringConfig.ignore_cable_type) none none).map
        (fun t => t.edges.length) = some 0 :=
  ⟨rfl, rfl⟩

/-- C6, counterexample: the emitted edge title interpolates the device display
string `"<x"` verbatim (views.py line 104 has no `escape`), while escaping it
would have produced `"&lt;x"` — so not every free-text value placed into a
title field is HTML-escaped. -/
theorem C6_counterexample :
    (get_topology_data emptyConfig [markupCable] [markupDevice, plainDevice 2 "y"] false
      (some []) (some false) (some [])).map (fun t => t.edges.map Edge.title)
    = some ["Cable between:<br><x [A]<br>y [B]"]
    ∧ escape "<x" ≠ "<x" :=
  ⟨rfl, by decide⟩

/-- C8: for every empty input device collection, `get_topology_data` returns
`none` (Python `None`) rather than an empty graph object, whatever the
configuration, cable table and options. -/
theorem C8_empty_queryset_returns_none (plugin_config : PluginConfig)
    (all_cables : List Cable) (hide_unconnected : Bool)
    (ignore_cable_types : Option (List String))
    (enable_circuit_terminations : Option Bool)
    (enabled_device_images : Option (List String)) :
    get_topology_data plugin_config all_cables [] hide_unconnected
      ignore_cable_types enable_circuit_terminations enabled_device_images = none := rfl

/-- C9: `get_topology_data` is deterministic — two calls with the same
configuration, cable table, device collection and options yield identical
results, node and edge ids and content included.  (In this pure embedding the
builder is a function, so determinism is definitional.) -/
theorem C9_deterministic (plugin_config : PluginConfig) (all_cables : List Cable)
    (queryset : List Device) (hide_unconnected : Bool)
    (ignore_cable_types : Option (List String))
    (enable_circuit_terminations : Option Bool)
    (enabled_device_images : Option (List String)) :
    get_topology_data plugin_config all_cables queryset hide_unconnected
      ignore_cable_types enable_circuit_terminations enabled_device_images
    = get_topology_data plugin_config all_cables queryset hide_unconnected
      ignore_cable_types enable_circuit_terminations enabled_device_images := rfl

/-- C1 (amended): every emitted edge has at least one endpoint in the
originally requested device set (the cable query requires one termination's
device id to be in the set; the loop never re-checks the other endpoint). -/
theorem C1_amended_edge_has_requested_endpoint (plugin_config : PluginConfig)
    (all_cables : List Cable) (queryset : List Device) (hide_unconnected : Bool)
    (ignore_cable_types : Option (List String)) (enable_circuit_terminations : Option Bool)
    (enabled_device_images : Option (List String)) (t : TopologyData)
    (h : get_topology_data plugin_config all_cables queryset hide_unconnected
      ignore_cable_types enable_circuit_terminations enabled_device_images = some t) :
    ∀ e ∈ t.edges, e.efrom ∈ queryset.map Device.id ∨ e.eto ∈ queryset.map Device.id := by
  obtain ⟨-, hE⟩ := get_topology_data_eq_some h
  intro e he
  rw [hE] at he
  unfold edge_pass at he
  rcases mem_edges_foldl _ _ _ e he with h0 | ⟨c, hc, dev_a, dev_b, ha, hb, hedge⟩
  · exact absurd h0 (List.not_mem_nil e)
  · unfold scopedCables at hc
    have hq := (List.mem_filter.mp hc).2
    unfold cableInQuery at hq
    simp only [Bool.and_eq_true, Bool.or_eq_true] at hq
    rcases hq with ⟨⟨hab, -⟩, -⟩
    have hef : e.efrom = dev_a.id := by rw [hedge]; rfl
    have het : e.eto = dev_b.id := by rw [hedge]; rfl
    rcases hab with hA | hB
    · left
      have hda : c.termination_a.deviceId? = some dev_a.id := by
        simp [Termination.deviceId?, ha]
      rw [hda] at hA
      rw [hef]
      simpa using hA
    · right
      have hdb : c.termination_b.deviceId? = some dev_b.id := by
        simp [Termination.deviceId?, hb]
      rw [hdb] at hB
      rw [het]
      simpa using hB

/-- C1 witness: the amended theorem applied to the one-device scenario and its
single emitted edge. -/
theorem C1_amended_witness :
    (edgeOfCable 0 cexCableOutside (plainDevice 1 "inside") (plainDevice 2 "outside")).efrom
        ∈ [plainDevice 1 "inside"].map Device.id
    ∨ (edgeOfCable 0 cexCableOutside (plainDevice 1 "inside") (plainDevice 2 "outside")).eto
        ∈ [plainDevice 1 "inside"].map Device.id :=
  C1_amended_edge_has_requested_endpoint emptyConfig [cexCableOutside]
    [plainDevice 1 "inside"] false (some []) (some false) (some []) cexResult rfl
    (edgeOfCable 0 cexCableOutside (plainDevice 1 "inside") (plainDevice 2 "outside"))
    (by decide)

/-- C2 (amended): node ids are the device ids of the emitted devices, listed
in input order (a sublist of the requested ids); when the requested device ids
are pairwise distinct, each appears in the node list at most once. -/
theorem C2_amended_node_ids_are_device_ids (plugin_config : PluginConfig)
    (all_cables : List Cable) (queryset : List Device) (hide_unconnected : Bool)
    (ignore_cable_types : Option (List String)) (enable_circuit_terminations : Option Bool)
    (enabled_device_images : Option (List String)) (t : TopologyData)
    (h : get_topology_data plugin_config all_cables queryset hide_unconnected
      ignore_cable_types enable_circuit_terminations enabled_device_images = some t)
    (hnodup : (queryset.map Device.id).Nodup) :
    (t.nodes.map Node.id).Sublist (queryset.map Device.id)
    ∧ (t.nodes.map Node.id).Nodup := by
  obtain ⟨hN, -⟩ := get_topology_data_eq_some h
  have hsub : (t.nodes.map Node.id).Sublist (queryset.map Device.id) := by
    rw [hN]
    unfold node_pass
    rw [List.map_map]
    exact (List.filter_sublist queryset).map _
  exact ⟨hsub, List.Nodup.sublist hsub hnodup⟩

/-- C2 witness: the amended theorem applied to the single-device scenario. -/
theorem C2_amended_witness :
    (d5Result.nodes.map Node.id).Sublist ([plainDevice 5 "d5"].map Device.id)
    ∧ (d5Result.nodes.map Node.id).Nodup :=
  C2_amended_node_ids_are_device_ids emptyConfig [] [plainDevice 5 "d5"] false
    (some []) (some false) (some []) d5Result rfl (by decide)

/-- C5 (amended): an unset `enable_circuit_terminations` or
`enabled_device_images` (Python default `None`) resolves to the process-wide
configuration value, but an unset `ignore_cable_types` (Python default `()`)
resolves to the empty collection — the configuration ignore list is used only
when the caller explicitly passes `None`. -/
theorem C5_amended_fallback (plugin_config : PluginConfig) :
    resolve_enable_circuit_terminations plugin_config none
        = plugin_config.enable_circuit_terminations
    ∧ resolve_enabled_device_images plugin_config none = plugin_config.device_img
    ∧ resolve_ignore_cable_types plugin_config (some []) = []
    ∧ resolve_ignore_cable_types plugin_config none = plugin_config.ignore_cable_type :=
  ⟨rfl, rfl, rfl, rfl⟩

/-- C6 (amended): every emitted node's free text is HTML-escaped — its `name`
and `label` are outputs of `escape` and HTML-safe, its tooltip `title` is the
`_generate_description` payload for its source device, in which the escaped
title text and the escaped value of every table cell occur as segments — while
the payload as a whole is not HTML-safe, because the structural tags are
emitted unescaped.  Edge titles, by contrast, interpolate device and
termination strings verbatim (see the counterexample). -/
theorem C6_amended_tooltip_escaping (plugin_config : PluginConfig)
    (all_cables : List Cable) (queryset : List Device) (hide_unconnected : Bool)
    (ignore_cable_types : Option (List String)) (enable_circuit_terminations : Option Bool)
    (enabled_device_images : Option (List String)) (t : TopologyData)
    (h : get_topology_data plugin_config all_cables queryset hide_unconnected
      ignore_cable_types enable_circuit_terminations enabled_device_images = some t) :
    ∀ n ∈ t.nodes, ∃ d ∈ queryset,
      (∃ u, n.name = escape u)
      ∧ HtmlSafe n.name
      ∧ n.label = escape d.str
      ∧ HtmlSafe n.label
      ∧ n.title = _generate_description d.str (device_node_data d)
      ∧ (∃ a b : List Char, n.title.data = a ++ (escape d.str).data ++ b)
      ∧ (∀ kv ∈ device_node_data d,
          ∃ a b : List Char, n.title.data = a ++ (escape kv.2).data ++ b)
      ∧ ¬HtmlSafe n.title := by
  obtain ⟨hN, -⟩ := get_topology_data_eq_some h
  intro n hn
  rw [hN] at hn
  unfold node_pass at hn
  rcases List.mem_map.mp hn with ⟨d, hd, rfl⟩
  refine ⟨d, (List.mem_filter.mp hd).1, ⟨_, rfl⟩, escape_HtmlSafe _, rfl,
    escape_HtmlSafe _, rfl, ?_, ?_, ?_⟩
  · exact _generate_description_title_segment d.str (device_node_data d)
  · intro kv hkv
    exact _generate_description_cell_segment d.str (device_node_data d) kv hkv
  · intro hsafe
    unfold HtmlSafe at hsafe
    rw [not_htmlSafeChars_of_head_lt (rfl :
      ((mkNode (resolve_enabled_device_images plugin_config enabled_device_images) d).title
        ).data.head? = some '<')] at hsafe
    exact Bool.false_ne_true hsafe

/-- C6 witness: the amended theorem applied to the markup-device scenario —
the emitted node's label is HTML-safe while its tooltip payload (which keeps
its structural tags raw) is not. -/
theorem C6_amended_witness :
    HtmlSafe (mkNode [] markupDevice).label
    ∧ ¬HtmlSafe (mkNode [] markupDevice).title := by
  rcases C6_amended_tooltip_escaping emptyConfig [markupCable]
      [markupDevice, plainDevice 2 "y"] false (some []) (some false) (some [])
      markupResult rfl (mkNode [] markupDevice) (by decide) with
    ⟨d, -, -, -, -, hlabel, -, -, -, htitle⟩
  exact ⟨hlabel, htitle⟩

/-- C7: with `hide_unconnected = true` every emitted node is an endpoint of
some emitted edge; with `hide_unconnected = false` every requested device
appears as a node, and a device touched by no cable in the table is incident
to no emitted edge. -/
theorem C7_hide_unconnected_nodes (plugin_config : PluginConfig)
    (all_cables : List Cable) (queryset : List Device) (hide_unconnected : Bool)
    (ignore_cable_types : Option (List String)) (enable_circuit_terminations : Option Bool)
    (enabled_device_images : Option (List String)) (t : TopologyData)
    (h : get_topology_data plugin_config all_cables queryset hide_unconnected
      ignore_cable_types enable_circuit_terminations enabled_device_images = some t) :
    (hide_unconnected = true →
      ∀ n ∈ t.nodes, ∃ e ∈ t.edges, n.id = e.efrom ∨ n.id = e.eto)
    ∧ (hide_unconnected = false → ∀ d ∈ queryset,
        (∃ n ∈ t.nodes, n.id = d.id)
        ∧ ((∀ c ∈ all_cables, c.termination_a.deviceId? ≠ some d.id
              ∧ c.termination_b.deviceId? ≠ some d.id) →
           ∀ e ∈ t.edges, e.efrom ≠ d.id ∧ e.eto ≠ d.id)) := by
  obtain ⟨hN, hE⟩ := get_topology_data_eq_some h
  constructor
  · rintro rfl n hn
    rw [hN] at hn
    unfold node_pass at hn
    rcases List.mem_map.mp hn with ⟨d, hd, rfl⟩
    have hd' := (List.mem_filter.mp hd).2
    simp only [Bool.not_true, Bool.false_or] at hd'
    have hmem : d.id ∈ (edge_pass
        (resolve_ignore_cable_types plugin_config ignore_cable_types)
        (scopedCables plugin_config all_cables queryset ignore_cable_types
          enable_circuit_terminations)).1 := by simpa using hd'
    unfold edge_pass at hmem
    rcases dwc_incident_foldl (resolve_ignore_cable_types plugin_config ignore_cable_types)
      (scopedCables plugin_config all_cables queryset ignore_cable_types
        enable_circuit_terminations) ([], []) (by simp) d.id hmem with ⟨e, he, hor⟩
    refine ⟨e, ?_, hor⟩
    rw [hE]
    exact he
  · rintro rfl d hd
    constructor
    · rw [hN]
      unfold node_pass
      exact ⟨mkNode (resolve_enabled_device_images plugin_config enabled_device_images) d,
        List.mem_map.mpr ⟨d, List.mem_filter.mpr ⟨hd, by simp⟩, rfl⟩, rfl⟩
    · intro huntouched e he
      rw [hE] at he
      unfold edge_pass at he
      rcases mem_edges_foldl _ _ _ e he with h0 | ⟨c, hc, dev_a, dev_b, ha, hb, hedge⟩
      · exact absurd h0 (List.not_mem_nil e)
      · have hcall : c ∈ all_cables := by
          unfold scopedCables at hc
          exact (List.mem_filter.mp hc).1
        have hef : e.efrom = dev_a.id := by rw [hedge]; rfl
        have het : e.eto = dev_b.id := by rw [hedge]; rfl
        constructor
        · rw [hef]
          intro heq
          exact (huntouched c hcall).1 (by simp [Termination.deviceId?, ha, heq])
        · rw [het]
          intro heq
          exact (huntouched c hcall).2 (by simp [Termination.deviceId?, hb, heq])

/-- C7 witness: in the two-device scenario the isolated device 5 (hidden flag
off) is incident to no emitted edge. -/
theorem C7_witness :
    (edgeOfCable 0 cexCableOutside (plainDevice 1 "inside") (plainDevice 2 "outside")).efrom
        ≠ (plainDevice 5 "d5").id
    ∧ (edgeOfCable 0 cexCableOutside (plainDevice 1 "inside") (plainDevice 2 "outside")).eto
        ≠ (plainDevice 5 "d5").id :=
  ((C7_hide_unconnected_nodes emptyConfig [cexCableOutside]
      [plainDevice 1 "inside", plainDevice 5 "d5"] false (some []) (some false) (some [])
      hubResult rfl).2 rfl (plainDevice 5 "d5") (by decide)).2 (by decide)
    (edgeOfCable 0 cexCableOutside (plainDevice 1 "inside") (plainDevice 2 "outside"))
    (by decide)

/-- C10: every emitted edge carries `headlabel` equal to the string form of
its cable's A termination, `taillabel` equal to the string form of the B
termination, and, exactly when the cable's `type` is truthy, a `label` equal
to the type together with `font = {"align": "middle"}`. -/
theorem C10_edge_extra_fields (plugin_config : PluginConfig)
    (all_cables : List Cable) (queryset : List Device) (hide_unconnected : Bool)
    (ignore_cable_types : Option (List String)) (enable_circuit_terminations : Option Bool)
    (enabled_device_images : Option (List String)) (t : TopologyData)
    (h : get_topology_data plugin_config all_cables queryset hide_unconnected
      ignore_cable_types enable_circuit_terminations enabled_device_images = some t) :
    ∀ e ∈ t.edges, ∃ c ∈ all_cables, ∃ dev_a dev_b : Device,
      c.termination_a.owner = TermOwner.device dev_a ∧
      c.termination_b.owner = TermOwner.device dev_b ∧
      e.headlabel = c.termination_a.str ∧
      e.taillabel = c.termination_b.str ∧
      (¬c.type = "" → e.label = some c.type ∧ e.font = some { align := "middle" }) ∧
      (c.type = "" → e.label = none ∧ e.font = none) := by
  obtain ⟨-, hE⟩ := get_topology_data_eq_some h
  intro e he
  rw [hE] at he
  unfold edge_pass at he
  rcases mem_edges_foldl _ _ _ e he with h0 | ⟨c, hc, dev_a, dev_b, ha, hb, hedge⟩
  · exact absurd h0 (List.not_mem_nil e)
  · have hcall : c ∈ all_cables := by
      unfold scopedCables at hc
      exact (List.mem_filter.mp hc).1
    refine ⟨c, hcall, dev_a, dev_b, ha, hb, ?_, ?_, ?_, ?_⟩
    · rw [hedge]; rfl
    · rw [hedge]; rfl
    · intro hty
      rw [hedge]
      exact ⟨by simp [edgeOfCable, hty], by simp [edgeOfCable, hty]⟩
    · intro hty
      rw [hedge]
      exact ⟨by simp [edgeOfCable, hty], by simp [edgeOfCable, hty]⟩

/-- C10 witness: the theorem applied to the typed-cable scenario's single
edge. -/
theorem C10_witness :
    (edgeOfCable 0 typedCable (plainDevice 1 "a") (plainDevice 2 "b")).headlabel
        = typedCable.termination_a.str
    ∧ (edgeOfCable 0 typedCable (plainDevice 1 "a") (plainDevice 2 "b")).label
        = some typedCable.type
    ∧ (edgeOfCable 0 typedCable (plainDevice 1 "a") (plainDevice 2 "b")).font
        = some { align := "middle" } := by
  have h := C10_edge_extra_fields emptyConfig [typedCable]
    [plainDevice 1 "a", plainDevice 2 "b"] false (some []) (some false) (some [])
    typedResult rfl
    (edgeOfCable 0 typedCable (plainDevice 1 "a") (plainDevice 2 "b")) (by decide)
  rcases h with ⟨c, hc, dev_a, dev_b, -, -, hh, -, hty, -⟩
  have hc' : c = typedCable := by simpa using hc
  subst hc'
  exact ⟨hh, (hty (by decide)).1, (hty (by decide)).2⟩

end TopologyViews
